import Mathlib

/-!
Verification of the decision core of the `volumebot` repository
(`price_strategy.py`, `market_data.py`, `order_manager.py`, `main.py`)
against its design document.

Modelling conventions of this shallow embedding:
* Python floats are modelled as rationals (`ℚ`).
* Every call to a random source (`np.random.uniform`, `np.random.random`,
  `np.random.choice`) is modelled as an explicit input carrying the drawn
  value; theorems that depend on the range of a draw take that range as a
  hypothesis, mirroring the guarantee of the sampler.
* `np.sin` at the advanced walk phase is transcendental; its value is an
  explicit input (`sinPhase`).  The clamping applied afterwards makes the
  stated properties insensitive to it.
* Exceptions are modelled explicitly: the `try`/`except` of
  `calculate_next_price_target` by the `failed` flag (the exceptional path
  is entered before any state write), and the fallible exchange call
  awaited inside `should_trade` (`cancel_open_orders`) by an
  `Option String` carrying the raised message.
* Readings of `datetime.now()` are explicit inputs: the timestamp `now : ℚ`,
  the current hour `hour : ℕ`, and for dry-run order ids the formatted
  timestamp string `tsStr`.
* The exchange client is modelled by explicit response functions
  (`resp`, `fetch`, `live`) and, for order placement, an explicit trace of
  the exchange calls performed.
-/

/-! Constants from `constants.py`. -/

def BASE_PRICE_STEP_RATIO : ℚ := 1/1000

def PRICE_RANDOMIZATION_FACTOR : ℚ := 1/2

def ORDER_SIDE_ALTERNATE_PROBABILITY : ℚ := 4/5

def PRICE_ADJUSTMENT_PROBABILITY : ℚ := 7/10

def LIQUIDITY_USAGE_RATIO : ℚ := 1/2

def BURST_MODE_INTERVAL_MULTIPLIER : ℚ := 3/10

def QUIET_MODE_INTERVAL_MULTIPLIER : ℚ := 3

def COMPLETED_ORDER_STATUSES : List String := ["closed", "filled", "canceled"]

/-! Data model. -/

inductive Side where
  | buy
  | sell
deriving DecidableEq, Repr

/-- An order book snapshot: price/size pairs, best first, as consumed by
`market_data.py`. -/
structure Orderbook where
  bids : List (ℚ × ℚ)
  asks : List (ℚ × ℚ)
deriving DecidableEq, Repr

/-- The part of the market-data dict read by the decision path:
`ticker.get('last', 0)` (absent key modelled by `none`) and the order book. -/
structure MarketData where
  ticker_last : Option ℚ
  orderbook : Orderbook
deriving DecidableEq, Repr

/-- `MarketDataProvider.calculate_spread` (`market_data.py`): zero when a
side is empty, `(ask - bid)/bid` when `bid > 0`, else zero. -/
def calculate_spread (ob : Orderbook) : ℚ :=
  match ob.bids, ob.asks with
  | [], _ => 0
  | _, [] => 0
  | (bid, _) :: _, (ask, _) :: _ => if 0 < bid then (ask - bid) / bid else 0

/-- `MarketDataProvider.get_available_liquidity` (`market_data.py`):
top-of-book sizes as `(bid_volume, ask_volume)`, zeros when a side is empty. -/
def get_available_liquidity (ob : Orderbook) : ℚ × ℚ :=
  match ob.bids, ob.asks with
  | [], _ => (0, 0)
  | _, [] => (0, 0)
  | (_, bv) :: _, (_, av) :: _ => (bv, av)

/-! Price walk strategy (`price_strategy.py`). -/

/-- The random draws consumed by one call to
`PriceStrategy.calculate_next_price_target`:
`noise ~ uniform(-PRICE_RANDOMIZATION_FACTOR, PRICE_RANDOMIZATION_FACTOR)`,
`upDraw ~ uniform(0,1)` (used by the `up`/`down` branches),
`phaseInc ~ uniform(0.1,0.3)` (sideways phase advance),
`sinPhase` the value of `np.sin` at the advanced phase,
`randSign ~ np.random.choice([-1,1])` (`true` for `+1`),
`randMag ~ uniform(0.5,2.0)`, and `failed` marking the exceptional
(`except`) path of the `try` block. -/
structure PriceDraws where
  noise : ℚ
  upDraw : ℚ
  phaseInc : ℚ
  sinPhase : ℚ
  randSign : Bool
  randMag : ℚ
  failed : Bool
deriving DecidableEq, Repr

/-- `np.clip x lo hi` for `lo ≤ hi`: `min (max x lo) hi`. -/
def clip (x lo hi : ℚ) : ℚ := min (max x lo) hi

/-- `PriceStrategy.calculate_next_price_target` (`price_strategy.py`,
lines 27-57).  Returns the clamped target together with the updated
`price_walk_step`.  On the exceptional path (`failed = true`) the
function fails soft: it returns `current_price` and leaves the phase
untouched. -/
def calculate_next_price_target (dir : String) (maxDev cp phase : ℚ) (d : PriceDraws) :
    ℚ × ℚ :=
  if d.failed then (cp, phase)
  else
    let base_step := cp * BASE_PRICE_STEP_RATIO
    let randomization := d.noise * base_step
    let raw : ℚ × ℚ :=
      if dir = "up" then (cp + (base_step * (1 + d.upDraw) + randomization), phase)
      else if dir = "down" then (cp - (base_step * (1 + d.upDraw) + randomization), phase)
      else if dir = "sideways" then
        (cp + (base_step * 2 * d.sinPhase + randomization), phase + d.phaseInc)
      else
        (cp + (base_step * d.randMag * (if d.randSign then 1 else -1) + randomization), phase)
    (clip raw.1 (cp * (1 - maxDev)) (cp * (1 + maxDev)), raw.2)

/-- The random draws consumed by one call to
`PriceStrategy.determine_order_side`: the fresh side when no previous
side exists, and the two `np.random.random()` draws for the alternation
and the target-consistency adjustment. -/
structure SideDraws where
  initSide : Side
  altDraw : ℚ
  adjDraw : ℚ
deriving DecidableEq, Repr

/-- `PriceStrategy.determine_order_side` (`price_strategy.py`, lines 59-79).
Returns the chosen side together with the updated `last_order_side`. -/
def determine_order_side (cp target : ℚ) (last : Option Side) (d : SideDraws) :
    Side × Option Side :=
  let side0 : Side :=
    match last with
    | none => d.initSide
    | some s =>
        if d.altDraw < ORDER_SIDE_ALTERNATE_PROBABILITY then
          (if s = Side.buy then Side.sell else Side.buy)
        else s
  let side : Side :=
    if cp < target ∧ side0 = Side.sell then
      (if d.adjDraw < PRICE_ADJUSTMENT_PROBABILITY then Side.buy else side0)
    else if target < cp ∧ side0 = Side.buy then
      (if d.adjDraw < PRICE_ADJUSTMENT_PROBABILITY then Side.sell else side0)
    else side0
  (side, some side)

/-! Helper lemmas about `clip`. -/

lemma clip_le_hi (x lo hi : ℚ) : clip x lo hi ≤ hi := min_le_right _ _

lemma lo_le_clip (x lo hi : ℚ) (h : lo ≤ hi) : lo ≤ clip x lo hi :=
  le_min (le_max_right _ _) h

/-- C1: For every `current_price > 0`, every `max_deviation ∈ (0, 0.1]`, and
every walk direction, the target returned by `calculate_next_price_target`
lies within `[current_price*(1-max_deviation), current_price*(1+max_deviation)]`,
including on the fail-soft path that returns `current_price` itself. -/
theorem c1_price_target_in_bounds (dir : String) (maxDev cp phase : ℚ) (d : PriceDraws)
    (hcp : 0 < cp) (hdev : 0 < maxDev) (hdev10 : maxDev ≤ 1/10) :
    cp * (1 - maxDev) ≤ (calculate_next_price_target dir maxDev cp phase d).1 ∧
    (calculate_next_price_target dir maxDev cp phase d).1 ≤ cp * (1 + maxDev) := by
  unfold calculate_next_price_target
  have hbound : cp * (1 - maxDev) ≤ cp * (1 + maxDev) := by nlinarith
  by_cases hf : d.failed
  · simp only [hf, if_true]
    constructor
    · nlinarith
    · nlinarith
  · simp only [hf, if_false, Bool.false_eq_true]
    exact ⟨lo_le_clip _ _ _ hbound, clip_le_hi _ _ _⟩

/-- Witness for C1 at `direction = "up"`, `current_price = 100`,
`max_deviation = 1/100`, all draws zero. -/
theorem c1_price_target_in_bounds_witness :
    100 * (1 - (1/100 : ℚ)) ≤
      (calculate_next_price_target "up" (1/100) 100 0 ⟨0, 0, 0, 0, false, 0, false⟩).1 ∧
    (calculate_next_price_target "up" (1/100) 100 0 ⟨0, 0, 0, 0, false, 0, false⟩).1 ≤
      100 * (1 + (1/100 : ℚ)) :=
  c1_price_target_in_bounds "up" (1/100) 100 0 ⟨0, 0, 0, 0, false, 0, false⟩
    (by norm_num) (by norm_num) (by norm_num)

/-! Strategy configuration and state (`main.py`, `VolumeGenerationStrategy`). -/

/-- The configuration fields of `VolumeGenerationStrategy` that the decision
path reads (`main.py`, lines 131-153). -/
structure StrategyConfig where
  price_walk_direction : String
  max_price_deviation : ℚ
  target_volume_usdt_per_hour : ℚ
  order_frequency : ℚ
  min_order_ratio : ℚ
  max_order_ratio : ℚ
  size_randomization : ℚ
  timing_randomization : ℚ
  burst_probability : ℚ
  quiet_probability : ℚ
  min_order_value_usdt : ℚ
  max_spread_threshold : ℚ
  cancel_previous_orders : Bool
deriving DecidableEq, Repr

/-- The mutable state of `PriceStrategy`: `price_walk_step` and
`last_order_side`. -/
structure PriceState where
  price_walk_step : ℚ
  last_order_side : Option Side
deriving DecidableEq, Repr

/-- The mutable state read and written by `should_trade`:
`last_order_time`, `volume_generated_today_usdt`, `order_count`
(`main.py`, lines 156-158), plus the `PriceStrategy` state. -/
structure StrategyState where
  last_order_time : Option ℚ
  volume_generated_today_usdt : ℚ
  order_count : ℕ
  price : PriceState
deriving DecidableEq, Repr

/-- The random draws consumed by one call to
`VolumeGenerationStrategy.calculate_order_size`:
`ratio ~ uniform(min_order_ratio, max_order_ratio)` and
`szRand ~ uniform(-size_randomization, size_randomization)`. -/
structure SizeDraws where
  ratio : ℚ
  szRand : ℚ
deriving DecidableEq, Repr

/-- `VolumeGenerationStrategy.calculate_order_size` (`main.py`, lines 175-198). -/
def calculate_order_size (cfg : StrategyConfig) (available_balance : ℚ) (md : MarketData)
    (cp : ℚ) (d : SizeDraws) : ℚ :=
  let base_size := available_balance * d.ratio
  let randomization_factor := 1 + d.szRand
  let order_size := base_size * randomization_factor
  let liq := get_available_liquidity md.orderbook
  let max_liquidity_size := min liq.1 liq.2 * LIQUIDITY_USAGE_RATIO
  let order_size := if 0 < max_liquidity_size then min order_size max_liquidity_size else order_size
  if 0 < cp then max order_size (cfg.min_order_value_usdt / cp)
  else max order_size 1

/-- The random draws consumed by one call to
`VolumeGenerationStrategy.should_place_order`:
`jitter ~ uniform(-timing_randomization, timing_randomization)` and the
two `np.random.random()` regime draws (each in `[0,1)`). -/
structure TimingDraws where
  jitter : ℚ
  burst : ℚ
  quiet : ℚ
deriving DecidableEq, Repr

/-- `VolumeGenerationStrategy.should_place_order` (`main.py`, lines 200-215). -/
def should_place_order (cfg : StrategyConfig) (last_order_time : Option ℚ) (now : ℚ)
    (d : TimingDraws) : Bool :=
  match last_order_time with
  | none => true
  | some t =>
    let elapsed := now - t
    let base_interval := cfg.order_frequency
    let randomized_interval := base_interval * (1 + d.jitter)
    let randomized_interval :=
      if d.burst < cfg.burst_probability then
        randomized_interval * BURST_MODE_INTERVAL_MULTIPLIER
      else if d.quiet < cfg.quiet_probability then
        randomized_interval * QUIET_MODE_INTERVAL_MULTIPLIER
      else randomized_interval
    decide (randomized_interval ≤ elapsed)

/-- The `analysis_data` dict built by `should_trade` (`main.py`, lines 262-273),
without the constant `strategy_type` entry. -/
structure AnalysisData where
  current_price : ℚ
  target_price : ℚ
  order_side : Side
  order_size : ℚ
  order_value_usdt : ℚ
  spread : ℚ
  spread_ok : Bool
  volume_rate_usdt : ℚ
  behind_target : Bool
deriving DecidableEq, Repr

/-- The diagnostics dict returned by `should_trade`: an error entry, the
`waiting_for_timing` flag, or the full analysis data. -/
inductive Diag where
  | err (msg : String)
  | waitingForTiming
  | analysis (a : AnalysisData)
deriving DecidableEq, Repr

/-- All random draws consumed by one `should_trade` call. -/
structure Draws where
  timing : TimingDraws
  price : PriceDraws
  side : SideDraws
  size : SizeDraws
deriving DecidableEq, Repr

/-- The body of `should_trade` after the market-data, timing and
cancellation steps (`main.py`, lines 238-281).  Returns the updated state
and the `(should_place, confidence, analysis)` triple.  Anonymous
constructors are used for the records; field order follows the structure
declarations above. -/
def should_trade_core (cfg : StrategyConfig) (st : StrategyState) (m : MarketData)
    (available_balance now : ℚ) (hour : ℕ) (d : Draws) :
    StrategyState × Bool × ℚ × Diag :=
  let cp := m.ticker_last.getD 0
  if cp ≤ 0 then (st, false, 0, Diag.err "Invalid current price")
  else
    let tp := calculate_next_price_target cfg.price_walk_direction cfg.max_price_deviation cp
      st.price.price_walk_step d.price
    let sd := determine_order_side cp tp.1 st.price.last_order_side d.side
    let order_size := calculate_order_size cfg available_balance m cp d.size
    let spread := calculate_spread m.orderbook
    let spread_ok : Bool := decide (spread ≤ cfg.max_spread_threshold)
    let confidence : ℚ := if spread_ok then 7/10 else 3/10
    let should_place : Bool := decide ((1:ℚ)/2 < confidence) && spread_ok
    let volume_rate_usdt := st.volume_generated_today_usdt / ((max 1 (hour + 1) : ℕ) : ℚ)
    let behind_target : Bool :=
      decide (volume_rate_usdt < cfg.target_volume_usdt_per_hour * (8/10))
    let confidence := if behind_target then confidence + 1/5 else confidence
    let analysis : AnalysisData :=
      ⟨cp, tp.1, sd.1, order_size, order_size * cp, spread, spread_ok,
       volume_rate_usdt, behind_target⟩
    let st2 : StrategyState :=
      if should_place then
        ⟨some now, st.volume_generated_today_usdt + order_size * cp,
         st.order_count + 1, ⟨tp.2, sd.2⟩⟩
      else ⟨st.last_order_time, st.volume_generated_today_usdt, st.order_count, ⟨tp.2, sd.2⟩⟩
    (st2, should_place, confidence, Diag.analysis analysis)

/-- `VolumeGenerationStrategy.should_trade` (`main.py`, lines 225-285).
`exc` models an exception raised by the awaited
`cancel_open_orders` exchange call inside the `try` block (the one
fallible operation there); it is caught by the surrounding `except` and
reported as an error diagnostic.  When cancellation is disabled the call
is not made, so the exception cannot fire. -/
def should_trade (cfg : StrategyConfig) (st : StrategyState) (md : Option MarketData)
    (available_balance now : ℚ) (hour : ℕ) (d : Draws) (exc : Option String) :
    StrategyState × Bool × ℚ × Diag :=
  match md with
  | none => (st, false, 0, Diag.err "No market data")
  | some m =>
    if should_place_order cfg st.last_order_time now d.timing then
      match (if cfg.cancel_previous_orders then exc else none) with
      | some e => (st, false, 0, Diag.err e)
      | none => should_trade_core cfg st m available_balance now hour d
    else (st, false, 0, Diag.waitingForTiming)

/-- C3: for every balance, market snapshot, `current_price > 0` and valid
configuration (`min_order_ratio < max_order_ratio`), the size returned by
`calculate_order_size` satisfies `size * current_price ≥ min_order_value_usdt`:
the minimum-notional floor is applied last and dominates the ratio draw,
the size randomization and the liquidity cap. -/
theorem c3_min_notional_floor (cfg : StrategyConfig) (balance : ℚ) (md : MarketData)
    (cp : ℚ) (d : SizeDraws)
    (hratio : cfg.min_order_ratio < cfg.max_order_ratio) (hcp : 0 < cp) :
    cfg.min_order_value_usdt ≤ calculate_order_size cfg balance md cp d * cp := by
  have h1 : cfg.min_order_value_usdt / cp ≤ calculate_order_size cfg balance md cp d := by
    unfold calculate_order_size
    rw [if_pos hcp]
    exact le_max_right _ _
  calc cfg.min_order_value_usdt = cfg.min_order_value_usdt / cp * cp := by
        field_simp
    _ ≤ calculate_order_size cfg balance md cp d * cp :=
        mul_le_mul_of_nonneg_right h1 hcp.le

/-- Concrete configuration used by witnesses: balance-floor scenario of the
spec (`min_order_ratio = 0.001`, `max_order_ratio = 0.005`,
`min_order_value_usdt = 5`). -/
def cfg3 : StrategyConfig :=
  ⟨"up", 1/100, 100, 60, 1/1000, 1/200, 3/10, 1/2, 1/20, 3/20, 5, 1/20, true⟩

/-- A market snapshot with an empty order book (no liquidity cap). -/
def mdEmpty : MarketData := ⟨some 100, ⟨[], []⟩⟩

/-- Witness for C3: `balance = 1000`, ratios `0.001`-`0.005`,
`min_order_value_usdt = 5`, `current_price = 0.002`; the notional floor
holds and the size is at least `2500` units. -/
theorem c3_min_notional_floor_witness :
    (5 : ℚ) ≤ calculate_order_size cfg3 1000 mdEmpty (1/500) ⟨1/1000, 0⟩ * (1/500) ∧
    (2500 : ℚ) ≤ calculate_order_size cfg3 1000 mdEmpty (1/500) ⟨1/1000, 0⟩ :=
  ⟨c3_min_notional_floor cfg3 1000 mdEmpty (1/500) ⟨1/1000, 0⟩ (by norm_num [cfg3])
      (by norm_num),
   by norm_num [calculate_order_size, get_available_liquidity, mdEmpty, cfg3,
     LIQUIDITY_USAGE_RATIO]⟩

/-- C6: with `timing_randomization = 0`, `burst_probability = 0` and
`quiet_probability = 0`, `should_place_order` is deterministic: true when
`last_order_time` is unset, otherwise true exactly when the elapsed time
is at least the configured `order_frequency`. -/
theorem c6_deterministic_when_unrandomized (cfg : StrategyConfig) (last : Option ℚ)
    (now : ℚ) (d : TimingDraws)
    (htr : cfg.timing_randomization = 0)
    (hj1 : -cfg.timing_randomization ≤ d.jitter) (hj2 : d.jitter ≤ cfg.timing_randomization)
    (hbp : cfg.burst_probability = 0) (hqp : cfg.quiet_probability = 0)
    (hb : 0 ≤ d.burst) (hq : 0 ≤ d.quiet) :
    should_place_order cfg last now d = true ↔
      (last = none ∨ ∃ t, last = some t ∧ cfg.order_frequency ≤ now - t) := by
  have hj0 : d.jitter = 0 := by
    rw [htr] at hj1 hj2
    exact le_antisymm hj2 (by simpa using hj1)
  cases last with
  | none => simp [should_place_order]
  | some t =>
    have hnb : ¬ d.burst < cfg.burst_probability := by rw [hbp]; exact not_lt.mpr hb
    have hnq : ¬ d.quiet < cfg.quiet_probability := by rw [hqp]; exact not_lt.mpr hq
    simp [should_place_order, hnb, hnq, hj0]

/-- Concrete configuration with all timing randomness switched off. -/
def cfg6 : StrategyConfig :=
  ⟨"up", 1/100, 100, 60, 1/1000, 1/200, 3/10, 0, 0, 0, 5, 1/20, true⟩

/-- Witness for C6: last order at time `0`, now `60`, frequency `60`:
exactly due. -/
theorem c6_deterministic_when_unrandomized_witness :
    should_place_order cfg6 (some 0) 60 ⟨0, 1/2, 1/2⟩ = true :=
  (c6_deterministic_when_unrandomized cfg6 (some 0) 60 ⟨0, 1/2, 1/2⟩ rfl
      (by norm_num [cfg6]) (by norm_num [cfg6]) rfl rfl (by norm_num) (by norm_num)).mpr
    (Or.inr ⟨0, rfl, by norm_num [cfg6]⟩)

/-- C7: in each `should_place_order` call at most one regime multiplier is
applied to the randomized interval, burst first: when the burst draw is
below `burst_probability` the burst multiplier applies regardless of the
quiet draw; the quiet multiplier applies only when the burst check failed
and the quiet draw is below `quiet_probability`; otherwise no multiplier
applies.  The two multipliers are never composed. -/
theorem c7_regime_priority (cfg : StrategyConfig) (t now : ℚ) (d : TimingDraws) :
    (d.burst < cfg.burst_probability →
      should_place_order cfg (some t) now d =
        decide (cfg.order_frequency * (1 + d.jitter) * BURST_MODE_INTERVAL_MULTIPLIER ≤
          now - t)) ∧
    (¬ d.burst < cfg.burst_probability → d.quiet < cfg.quiet_probability →
      should_place_order cfg (some t) now d =
        decide (cfg.order_frequency * (1 + d.jitter) * QUIET_MODE_INTERVAL_MULTIPLIER ≤
          now - t)) ∧
    (¬ d.burst < cfg.burst_probability → ¬ d.quiet < cfg.quiet_probability →
      should_place_order cfg (some t) now d =
        decide (cfg.order_frequency * (1 + d.jitter) ≤ now - t)) := by
  refine ⟨fun hb => ?_, fun hb hq => ?_, fun hb hq => ?_⟩
  · simp [should_place_order, hb]
  · simp [should_place_order, hb, hq]
  · simp [should_place_order, hb, hq]

/-- Concrete configuration with burst and quiet probability both `1/2`. -/
def cfg7 : StrategyConfig :=
  ⟨"up", 1/100, 100, 60, 1/1000, 1/200, 3/10, 1/2, 1/2, 1/2, 5, 1/20, true⟩

/-- Witness for C7: both regime draws are `0`, so both regimes "want" to
apply; the burst multiplier wins and the shortened interval `18` has
elapsed. -/
theorem c7_regime_priority_witness :
    should_place_order cfg7 (some 0) 100 ⟨0, 0, 0⟩ = true := by
  have h := (c7_regime_priority cfg7 0 100 ⟨0, 0, 0⟩).1 (by norm_num [cfg7])
  rw [h]
  norm_num [cfg7, BURST_MODE_INTERVAL_MULTIPLIER]

/-- C5: on an unexpected internal failure (the fallible exchange call inside
the `try` block raising with message `msg`), `should_trade` does not raise:
it returns `should_place = false`, `confidence = 0`, and a diagnostic
carrying the error message, leaving the state untouched. -/
theorem c5_internal_failure_contained (cfg : StrategyConfig) (st : StrategyState)
    (m : MarketData) (balance now : ℚ) (hour : ℕ) (d : Draws) (msg : String)
    (hc : cfg.cancel_previous_orders = true)
    (ht : should_place_order cfg st.last_order_time now d.timing = true) :
    should_trade cfg st (some m) balance now hour d (some msg) =
      (st, false, 0, Diag.err msg) := by
  simp [should_trade, ht, hc]

/-- Strategy state before any order: no last order time, zero volume, zero
count, fresh price-walk state. -/
def st0 : StrategyState := ⟨none, 0, 0, ⟨0, none⟩⟩

/-- A fixed draw bundle for concrete scenarios (all draws zero,
fresh side `buy`, no exceptional price path). -/
def d0 : Draws := ⟨⟨0, 0, 0⟩, ⟨0, 0, 0, 0, false, 0, false⟩, ⟨Side.buy, 0, 0⟩, ⟨0, 0⟩⟩

/-- Witness for C5: a concrete raised message is reported, not propagated. -/
theorem c5_internal_failure_contained_witness :
    should_trade cfg6 st0 (some mdEmpty) 1000 0 0 d0 (some "boom") =
      (st0, false, 0, Diag.err "boom") :=
  c5_internal_failure_contained cfg6 st0 mdEmpty 1000 0 0 d0 "boom" rfl rfl

/-- C10: on the acceptance path (market data present, timing due,
positive price, no internal exception) the placement flag equals exactly
the spread test; the behind-target bonus only moves the reported
confidence (to `0.9`/`0.7` when the spread is acceptable, `0.5`/`0.3`
when it is not) and never flips the flag. -/
theorem c10_flag_is_spread_ok (cfg : StrategyConfig) (st : StrategyState) (m : MarketData)
    (balance now : ℚ) (hour : ℕ) (d : Draws)
    (ht : should_place_order cfg st.last_order_time now d.timing = true)
    (hcp : 0 < m.ticker_last.getD 0) :
    (should_trade cfg st (some m) balance now hour d none).2.1 =
      decide (calculate_spread m.orderbook ≤ cfg.max_spread_threshold) ∧
    (should_trade cfg st (some m) balance now hour d none).2.2.1 =
      (if calculate_spread m.orderbook ≤ cfg.max_spread_threshold then
        (if st.volume_generated_today_usdt / ((max 1 (hour + 1) : ℕ) : ℚ) <
            cfg.target_volume_usdt_per_hour * (8/10) then (9:ℚ)/10 else 7/10)
       else
        (if st.volume_generated_today_usdt / ((max 1 (hour + 1) : ℕ) : ℚ) <
            cfg.target_volume_usdt_per_hour * (8/10) then (1:ℚ)/2 else 3/10)) := by
  simp only [should_trade, ht, if_true, ite_self]
  unfold should_trade_core
  rw [if_neg (not_le.mpr hcp)]
  by_cases hs : calculate_spread m.orderbook ≤ cfg.max_spread_threshold <;>
    by_cases hb : st.volume_generated_today_usdt / ((max 1 (hour + 1) : ℕ) : ℚ) <
      cfg.target_volume_usdt_per_hour * (8/10) <;>
    simp [hs, hb] <;> norm_num

/-- Witness for C10 at a concrete rejected-spread input. -/
theorem c10_flag_is_spread_ok_witness :
    (should_trade cfg6 st0 (some mdEmpty) 1000 0 0 d0 none).2.1 =
      decide (calculate_spread mdEmpty.orderbook ≤ cfg6.max_spread_threshold) ∧
    (should_trade cfg6 st0 (some mdEmpty) 1000 0 0 d0 none).2.2.1 =
      (if calculate_spread mdEmpty.orderbook ≤ cfg6.max_spread_threshold then
        (if st0.volume_generated_today_usdt / ((max 1 (0 + 1) : ℕ) : ℚ) <
            cfg6.target_volume_usdt_per_hour * (8/10) then (9:ℚ)/10 else 7/10)
       else
        (if st0.volume_generated_today_usdt / ((max 1 (0 + 1) : ℕ) : ℚ) <
            cfg6.target_volume_usdt_per_hour * (8/10) then (1:ℚ)/2 else 3/10)) :=
  c10_flag_is_spread_ok cfg6 st0 mdEmpty 1000 0 0 d0 rfl (by norm_num [mdEmpty])

/-- C2 (amended): `last_order_time`, `volume_generated_today_usdt` and
`order_count` are unchanged on every `should_trade` call that returns
`should_place = false`.  (The price-strategy fields `price_walk_step` and
`last_order_side` are not covered: they are updated as soon as the call
reaches the price/side computation, even when the spread check then
rejects the trade — see `c2_counterexample_side_mutated_on_reject`.) -/
theorem c2_counters_frame (cfg : StrategyConfig) (st : StrategyState) (md : Option MarketData)
    (balance now : ℚ) (hour : ℕ) (d : Draws) (exc : Option String)
    (h : (should_trade cfg st md balance now hour d exc).2.1 = false) :
    (should_trade cfg st md balance now hour d exc).1.last_order_time = st.last_order_time ∧
    (should_trade cfg st md balance now hour d exc).1.volume_generated_today_usdt =
      st.volume_generated_today_usdt ∧
    (should_trade cfg st md balance now hour d exc).1.order_count = st.order_count := by
  cases md with
  | none => simp [should_trade]
  | some m =>
    by_cases ht : should_place_order cfg st.last_order_time now d.timing = true
    · simp only [should_trade, ht, if_true] at h ⊢
      cases hE : (if cfg.cancel_previous_orders then exc else none) with
      | some e => simp [hE]
      | none =>
        simp only [hE] at h ⊢
        unfold should_trade_core at h ⊢
        by_cases hcp : m.ticker_last.getD 0 ≤ 0
        · simp [hcp]
        · simp only [hcp, if_false] at h ⊢
          simp only [h]
          simp
    · rw [Bool.not_eq_true] at ht
      simp [should_trade, ht]

/-- Configuration for the spread-rejection counterexample: direction `up`,
spread threshold `0`, cancellation disabled. -/
def cfg2 : StrategyConfig :=
  ⟨"up", 1/100, 100, 60, 1/1000, 1/200, 3/10, 1/2, 1/20, 3/20, 5, 0, false⟩

/-- Market snapshot with last price `100` and a `1%` spread. -/
def md2 : MarketData := ⟨some 100, ⟨[(100, 5)], [(101, 5)]⟩⟩

/-- Counterexample to C2 as stated: a spread-rejected call returns
`should_place = false`, yet `last_order_side` (a `StrategyState` field
listed in the claim) has changed from `none` to a concrete side. -/
theorem c2_counterexample_side_mutated_on_reject :
    (should_trade cfg2 st0 (some md2) 1000 0 0 d0 none).2.1 = false ∧
    (should_trade cfg2 st0 (some md2) 1000 0 0 d0 none).1.price.last_order_side ≠
      st0.price.last_order_side := by
  constructor <;>
    norm_num [should_trade, should_trade_core, should_place_order,
      calculate_next_price_target, determine_order_side, calculate_order_size,
      calculate_spread, get_available_liquidity, clip, cfg2, md2, st0, d0,
      BASE_PRICE_STEP_RATIO, ORDER_SIDE_ALTERNATE_PROBABILITY,
      PRICE_ADJUSTMENT_PROBABILITY, LIQUIDITY_USAGE_RATIO] <;>
    simp

/-- Witness for the amended C2 theorem at the same concrete
spread-rejected input. -/
theorem c2_counters_frame_witness :
    (should_trade cfg2 st0 (some md2) 1000 0 0 d0 none).1.last_order_time =
      st0.last_order_time ∧
    (should_trade cfg2 st0 (some md2) 1000 0 0 d0 none).1.volume_generated_today_usdt =
      st0.volume_generated_today_usdt ∧
    (should_trade cfg2 st0 (some md2) 1000 0 0 d0 none).1.order_count = st0.order_count :=
  c2_counters_frame cfg2 st0 (some md2) 1000 0 0 d0 none
    (by norm_num [should_trade, should_trade_core, should_place_order,
      calculate_next_price_target, determine_order_side, calculate_order_size,
      calculate_spread, get_available_liquidity, clip, cfg2, md2, st0, d0,
      BASE_PRICE_STEP_RATIO, ORDER_SIDE_ALTERNATE_PROBABILITY,
      PRICE_ADJUSTMENT_PROBABILITY, LIQUIDITY_USAGE_RATIO])

/-! Order lifecycle tracker (`order_manager.py`).  The exchange client is
modelled by response functions: `resp id` is `none` when `cancel_order id`
succeeds and `some msg` when it raises with message `msg`; `fetch id` is
the result of `fetch_order id` (the reported status string, or the raised
message). -/

/-- Substring test on character lists, modelling Python's `in` on strings. -/
def containsSub (hay needle : List Char) : Bool :=
  match hay with
  | [] => needle.isEmpty
  | c :: t => needle.isPrefixOf (c :: t) || containsSub t needle

/-- Python's `str.lower()`, as the character list of the result. -/
def lowerStr (s : String) : List Char := s.data.map Char.toLower

/-- The characters of the literal `'not found'` checked against lowered
exception messages. -/
def notFoundToken : List Char := "not found".data

/-- The characters of the literal `'already'` checked against lowered
exception messages in `cancel_open_orders`. -/
def alreadyToken : List Char := "already".data

/-- The benign-failure test of `cancel_open_orders` (`order_manager.py`,
line 75): `'not found' in str(e).lower() or 'already' in str(e).lower()`. -/
def benignCancelMsg (msg : String) : Bool :=
  containsSub (lowerStr msg) notFoundToken || containsSub (lowerStr msg) alreadyToken

/-- Python's guarded `list.remove`: drop the first occurrence, no-op when
absent. -/
def removeFirst : List String → String → List String
  | [], _ => []
  | x :: t, a => if x = a then t else x :: removeFirst t a

/-- The cancellation loop of `cancel_open_orders` (`order_manager.py`,
lines 68-79): returns the count of positively cancelled orders and the
`orders_to_remove` list, in iteration order. -/
def cancelScan (resp : String → Option String) : List String → ℕ × List String
  | [] => (0, [])
  | id :: t =>
    let r := cancelScan resp t
    match resp id with
    | none => (r.1 + 1, id :: r.2)
    | some msg => if benignCancelMsg msg then (r.1, id :: r.2) else r

/-- Whether `cancel_open_orders` removes `id` from tracking: cancellation
succeeded, or it failed with a benign (`not found`/`already`) message. -/
def cancelRemovable (resp : String → Option String) (id : String) : Bool :=
  match resp id with
  | none => true
  | some msg => benignCancelMsg msg

/-- `OrderManager.cancel_open_orders` (`order_manager.py`, lines 58-89):
returns the cancelled count and the tracked list after removals. -/
def cancel_open_orders (resp : String → Option String) (open_orders : List String) :
    ℕ × List String :=
  if open_orders.isEmpty then (0, open_orders)
  else
    let r := cancelScan resp open_orders
    (r.1, List.foldl removeFirst open_orders r.2)

/-- Whether `cleanup_completed_orders` removes `id` from tracking: the
status query reported a terminal status, or it raised with a
`'not found'` message (`order_manager.py`, lines 100-110). -/
def cleanupRemovable (fetch : String → Except String String) (id : String) : Bool :=
  match fetch id with
  | Except.ok status => decide (status ∈ COMPLETED_ORDER_STATUSES)
  | Except.error e => containsSub (lowerStr e) notFoundToken

/-- The reconciliation loop of `cleanup_completed_orders`: returns the
completed count and the `orders_to_remove` list, in iteration order. -/
def cleanupScan (fetch : String → Except String String) : List String → ℕ × List String
  | [] => (0, [])
  | id :: t =>
    let r := cleanupScan fetch t
    if cleanupRemovable fetch id then (r.1 + 1, id :: r.2) else r

/-- `OrderManager.cleanup_completed_orders` (`order_manager.py`,
lines 91-120): returns the completed count and the tracked list after
removals. -/
def cleanup_completed_orders (fetch : String → Except String String)
    (open_orders : List String) : ℕ × List String :=
  if open_orders.isEmpty then (0, open_orders)
  else
    let r := cleanupScan fetch open_orders
    (r.1, List.foldl removeFirst open_orders r.2)

/-! Lemmas about the tracker loops. -/

lemma cancelScan_fst (resp : String → Option String) (l : List String) :
    (cancelScan resp l).1 = (l.filter fun id => (resp id).isNone).length := by
  induction l with
  | nil => simp [cancelScan]
  | cons id t ih =>
    simp only [cancelScan]
    cases h : resp id with
    | none => simp [h, List.filter_cons, ih]
    | some msg => cases hB : benignCancelMsg msg <;> simp [h, hB, List.filter_cons, ih]

lemma cancelScan_snd (resp : String → Option String) (l : List String) :
    (cancelScan resp l).2 = l.filter (cancelRemovable resp) := by
  induction l with
  | nil => simp [cancelScan]
  | cons id t ih =>
    simp only [cancelScan]
    cases h : resp id with
    | none => simp [h, cancelRemovable, List.filter_cons, ih]
    | some msg =>
      cases hB : benignCancelMsg msg <;>
        simp [h, hB, cancelRemovable, List.filter_cons, ih]

lemma cleanupScan_fst (fetch : String → Except String String) (l : List String) :
    (cleanupScan fetch l).1 = (l.filter (cleanupRemovable fetch)).length := by
  induction l with
  | nil => simp [cleanupScan]
  | cons id t ih =>
    simp only [cleanupScan]
    cases h : cleanupRemovable fetch id <;> simp [h, List.filter_cons, ih]

lemma cleanupScan_snd (fetch : String → Except String String) (l : List String) :
    (cleanupScan fetch l).2 = l.filter (cleanupRemovable fetch) := by
  induction l with
  | nil => simp [cleanupScan]
  | cons id t ih =>
    simp only [cleanupScan]
    cases h : cleanupRemovable fetch id <;> simp [h, List.filter_cons, ih]

lemma removeFirst_eq_filter (l : List String) (a : String) (h : l.Nodup) :
    removeFirst l a = l.filter fun x => x ≠ a := by
  induction l with
  | nil => simp [removeFirst]
  | cons x t ih =>
    simp only [removeFirst]
    by_cases hxa : x = a
    · rw [if_pos hxa]
      subst hxa
      rw [List.filter_cons, if_neg (by simp)]
      exact (List.filter_eq_self.mpr fun b hb => by
        simp only [ne_eq, decide_eq_true_eq]
        rintro rfl
        exact (List.nodup_cons.mp h).1 hb).symm
    · rw [if_neg hxa, List.filter_cons, if_pos (by simp [hxa]), ih (List.nodup_cons.mp h).2]

lemma foldl_removeFirst_eq_filter (rem : List String) : ∀ l : List String, l.Nodup →
    List.foldl removeFirst l rem = l.filter fun x => x ∉ rem := by
  induction rem with
  | nil => intro l _; simp
  | cons a r ih =>
    intro l h
    have h1 : removeFirst l a = l.filter fun x => x ≠ a := removeFirst_eq_filter l a h
    calc List.foldl removeFirst l (a :: r)
        = List.foldl removeFirst (removeFirst l a) r := rfl
      _ = (removeFirst l a).filter fun x => x ∉ r := by
          refine ih _ ?_
          rw [h1]
          exact h.filter _
      _ = ((l.filter fun x => x ≠ a).filter fun x => x ∉ r) := by rw [h1]
      _ = l.filter fun x => x ∉ a :: r := by
          rw [List.filter_filter]
          refine List.filter_congr fun x _ => ?_
          by_cases h1 : x = a <;> by_cases h2 : x ∈ r <;> simp [h1, h2]

/-- C4: `cancel_open_orders` removes from tracking exactly the ids whose
cancellation succeeded or failed benignly (`not found`/`already`), keeps
every other id tracked, and returns the count of positive cancellations
only. -/
theorem c4_cancel_all_exact (resp : String → Option String) (l : List String)
    (h : l.Nodup) :
    (cancel_open_orders resp l).1 = (l.filter fun id => (resp id).isNone).length ∧
    (cancel_open_orders resp l).2 = l.filter fun id => !cancelRemovable resp id := by
  unfold cancel_open_orders
  by_cases hl : l.isEmpty = true
  · rw [List.isEmpty_iff.mp hl]
    simp
  · rw [if_neg hl]
    refine ⟨cancelScan_fst resp l, ?_⟩
    show List.foldl removeFirst l (cancelScan resp l).2 = _
    rw [cancelScan_snd, foldl_removeFirst_eq_filter _ l h]
    refine List.filter_congr fun x hx => ?_
    by_cases hr : cancelRemovable resp x = true <;> simp [List.mem_filter, hx, hr]

/-- Cancellation responses of the spec scenario: cancelling `"a"` succeeds,
cancelling anything else raises `"order not found"`. -/
def respW : String → Option String :=
  fun id => if id = "a" then none else some "order not found"

/-- Witness for C4: tracker `["a","b"]` returns `1` and ends empty; the
empty tracker returns `0` and stays empty. -/
theorem c4_cancel_all_exact_witness :
    (cancel_open_orders respW ["a", "b"]).1 = 1 ∧
    (cancel_open_orders respW ["a", "b"]).2 = [] ∧
    cancel_open_orders respW [] = (0, []) := by
  have h := c4_cancel_all_exact respW ["a", "b"] (by decide)
  exact ⟨h.1.trans (by decide), h.2.trans (by decide), rfl⟩

/-- C8: `cleanup_completed_orders` removes from tracking exactly the ids
whose status query reported a terminal status (`filled`, `closed`,
`canceled`) or raised with a `not found` message, counts each removal,
and keeps every other id tracked. -/
theorem c8_reconcile_exact (fetch : String → Except String String) (l : List String)
    (h : l.Nodup) :
    (cleanup_completed_orders fetch l).1 = (l.filter (cleanupRemovable fetch)).length ∧
    (cleanup_completed_orders fetch l).2 = l.filter fun id => !cleanupRemovable fetch id := by
  unfold cleanup_completed_orders
  by_cases hl : l.isEmpty = true
  · rw [List.isEmpty_iff.mp hl]
    simp
  · rw [if_neg hl]
    refine ⟨cleanupScan_fst fetch l, ?_⟩
    show List.foldl removeFirst l (cleanupScan fetch l).2 = _
    rw [cleanupScan_snd, foldl_removeFirst_eq_filter _ l h]
    refine List.filter_congr fun x hx => ?_
    by_cases hr : cleanupRemovable fetch x = true <;> simp [List.mem_filter, hx, hr]

/-- Status-query responses for the C8 witness: `"x"` reports `filled`,
`"y"` raises `Order not found`, `"z"` reports `open`, anything else
raises a transient network error. -/
def fetchW : String → Except String String :=
  fun id =>
    if id = "x" then Except.ok "filled"
    else if id = "y" then Except.error "Order not found"
    else if id = "z" then Except.ok "open"
    else Except.error "network timeout"

/-- Witness for C8: of `["x","y","z","w"]`, the filled `"x"` and the
not-found `"y"` are removed and counted; the still-open `"z"` and the
transiently failing `"w"` stay tracked. -/
theorem c8_reconcile_exact_witness :
    (cleanup_completed_orders fetchW ["x", "y", "z", "w"]).1 = 2 ∧
    (cleanup_completed_orders fetchW ["x", "y", "z", "w"]).2 = ["z", "w"] := by
  have h := c8_reconcile_exact fetchW ["x", "y", "z", "w"] (by decide)
  exact ⟨h.1.trans (by decide), h.2.trans (by decide)⟩

/-! Order placement (`order_manager.py`, `OrderManager.place_order`). -/

/-- An exchange call performed during placement; the trace of these calls
models the network effect of `place_order`. -/
inductive ExCall where
  | createLimitOrder (side : Side) (amount price : ℚ)
  | createMarketOrder (side : Side) (amount : ℚ)
deriving DecidableEq, Repr

/-- The order record returned by `place_order` (the dict of
`order_manager.py`, lines 30-39, and the exchange's record in live mode). -/
structure OrderRecord where
  id : String
  symbol : String
  side : Side
  amount : ℚ
  price : Option ℚ
  value_usdt : ℚ
  status : String
  dry_run : Bool
deriving DecidableEq, Repr

/-- `OrderManager.place_order` (`order_manager.py`, lines 23-56).
`tsStr` is the formatted `datetime.now().timestamp()` reading used for the
dry-run id; `live` is the exchange's response in live mode (`Except.error`
for a raised exception, caught and returned as an error result).  Returns
the result, the updated tracked list, and the trace of exchange calls
performed. -/
def place_order (symbol : String) (open_orders : List String) (side : Side) (amount : ℚ)
    (price : Option ℚ) (dry_run : Bool) (tsStr : String)
    (live : Except String OrderRecord) :
    Except String OrderRecord × List String × List ExCall :=
  let order_value_usdt : ℚ := match price with | some p => amount * p | none => 0
  if dry_run then
    (Except.ok ⟨"dry_run_" ++ tsStr, symbol, side, amount, price, order_value_usdt,
       "closed", true⟩,
     open_orders, [])
  else
    let call := match price with
      | some p => ExCall.createLimitOrder side amount p
      | none => ExCall.createMarketOrder side amount
    match live with
    | Except.ok order =>
      (Except.ok order,
       (if order.id.isEmpty then open_orders else open_orders ++ [order.id]),
       [call])
    | Except.error e => (Except.error e, open_orders, [call])

lemma string_append_left_cancel (p a b : String) (h : p ++ a = p ++ b) : a = b := by
  have hd := congrArg String.data h
  rw [String.data_append, String.data_append] at hd
  exact String.ext (List.append_cancel_left hd)

/-- C9: a dry-run `place_order` call performs no exchange call, returns a
record whose status is `closed` (a terminal, filled-equivalent status),
and two dry-run calls with distinct timestamp readings return distinct
ids. -/
theorem c9_dry_run_place (symbol : String) (open_orders : List String) (side : Side)
    (amount : ℚ) (price : Option ℚ) (live : Except String OrderRecord)
    (ts1 ts2 : String) (hts : ts1 ≠ ts2) :
    (place_order symbol open_orders side amount price true ts1 live).2.2 = [] ∧
    ∃ r1 r2 : OrderRecord,
      (place_order symbol open_orders side amount price true ts1 live).1 = Except.ok r1 ∧
      (place_order symbol open_orders side amount price true ts2 live).1 = Except.ok r2 ∧
      r1.status = "closed" ∧ r1.status ∈ COMPLETED_ORDER_STATUSES ∧ r1.id ≠ r2.id := by
  refine ⟨rfl,
    ⟨"dry_run_" ++ ts1, symbol, side, amount, price,
      match price with | some p => amount * p | none => 0, "closed", true⟩,
    ⟨"dry_run_" ++ ts2, symbol, side, amount, price,
      match price with | some p => amount * p | none => 0, "closed", true⟩,
    rfl, rfl, rfl, by simp [COMPLETED_ORDER_STATUSES], ?_⟩
  intro hid
  exact hts (string_append_left_cancel "dry_run_" ts1 ts2 hid)

/-- Witness for C9 at concrete arguments with distinct timestamps. -/
theorem c9_dry_run_place_witness :
    (place_order "ETH/USDT" [] Side.buy 1 (some 2) true "1700.5" (Except.error "x")).2.2
        = [] ∧
    ∃ r1 r2 : OrderRecord,
      (place_order "ETH/USDT" [] Side.buy 1 (some 2) true "1700.5" (Except.error "x")).1 =
        Except.ok r1 ∧
      (place_order "ETH/USDT" [] Side.buy 1 (some 2) true "1700.6" (Except.error "x")).1 =
        Except.ok r2 ∧
      r1.status = "closed" ∧ r1.status ∈ COMPLETED_ORDER_STATUSES ∧ r1.id ≠ r2.id :=
  c9_dry_run_place "ETH/USDT" [] Side.buy 1 (some 2) (Except.error "x") "1700.5" "1700.6"
    (by decide)
